import Mathlib

/-!
Verification of the camera-generation engine of `apps/scn2cam/scn2cam.cpp`
(candidate generation, visibility scoring, viewpoint masking, trajectory
resampling).  Pure fragments of the C++ code are embedded as executable Lean
definitions; external collaborators (renderer, ray tracer, spline library,
grid rasterizer) enter as explicit oracle arguments or, where the behaviour
is fixed by the specification but the code is not in `src/`, as definitions
modelled from the specification (marked as such in their doc comments).

Numeric conventions: C `double` arithmetic on the values handled here
(pixel counts, thresholds, scores) is embedded as exact `ℚ`/`ℝ` arithmetic;
C `int` casts and `int` division truncate toward zero, embedded with
`Int.tdiv` and `truncRat` below.
-/

/-- Truncation of a rational toward zero, the effect of a C cast from
`double` to `int` (used at `min_pixel_count_per_object` and at the mask
resolution computation). -/
def truncRat (q : ℚ) : ℤ :=
  Int.tdiv q.num (q.den : ℤ)

/-- Substring occurrence test over character lists, the embedding of C
`strstr`: true iff `pat` occurs contiguously inside the second list. -/
def listContainsSub (pat : List Char) : List Char → Bool
  | [] => pat.isEmpty
  | c :: rest => pat.isPrefixOf (c :: rest) || listContainsSub pat rest

/-- Scene node as seen by the scoring code: an optional name (`Name()` may
be NULL) and a child count.  Geometry is consumed only through oracles. -/
structure SceneNode where
  name : Option String
  nChildren : ℕ
deriving DecidableEq

/-- Scene as an indexed list of nodes (`scene->NNodes()`, `scene->Node(i)`). -/
structure Scene where
  nodes : List SceneNode
deriving DecidableEq

/-- Default node used for out-of-range indexing (never reached on the index
ranges the code iterates over). -/
def defaultSceneNode : SceneNode := ⟨none, 0⟩

/-- Node lookup, `scene->Node(i)`. -/
def sceneNode (scene : Scene) (i : ℕ) : SceneNode :=
  scene.nodes.getD i defaultSceneNode

/-- Embedding of `IsObject` (scn2cam.cpp lines 702-718): a node is an object
iff it has no children and its name, when present, does not start with
`Walls#`, `Floors#` or `Ceilings#` and does not contain `Door` or `Window`. -/
def IsObject (node : SceneNode) : Bool :=
  if node.nChildren > 0 then false
  else
    match node.name with
    | none => true
    | some s =>
      if s.startsWith "Walls#" then false
      else if s.startsWith "Floors#" then false
      else if s.startsWith "Ceilings#" then false
      else if listContainsSub "Door".data s.data then false
      else if listContainsSub "Window".data s.data then false
      else true

/-- Scoring configuration: the global variables read by `SceneCoverageScore`
(scn2cam.cpp lines 45-66).  `minVisibleObjects` is a C `double`, embedded
as `ℚ`; `sceneScoringMethod` is a C `int`. -/
structure Config where
  width : ℕ
  height : ℕ
  minVisibleFraction : ℚ
  minVisibleObjects : ℚ
  sceneScoringMethod : ℤ
deriving DecidableEq

/-- Embedding of `max_pixel_count = width * height` (line 821). -/
def maxPixelCount (cfg : Config) : ℕ :=
  cfg.width * cfg.height

/-- Embedding of `min_pixel_count_per_object = min_visible_fraction *
max_pixel_count` (line 825): the `double` product is truncated by the
assignment to `int`. -/
def minPixelCountPerObject (cfg : Config) : ℤ :=
  truncRat (cfg.minVisibleFraction * (maxPixelCount cfg : ℚ))

/-- Per-pixel node-identifier image produced by the renderer: `none` is
`R2_GRID_UNKNOWN_VALUE`, `some i` the index of the node covering the pixel. -/
def NodeImage : Type := List (Option ℕ)

/-- Embedding of the pixel-count loop (lines 836-842): the number of pixels
of the image labelled with node index `i`. -/
def nodePixelCount (image : List (Option ℕ)) (i : ℕ) : ℕ :=
  (image.filter (fun p => p == some i)).length

/-- Indices of nodes that pass both scoring filters (lines 852-853 and
868-869): the node is an object and its pixel count strictly exceeds
`min_pixel_count_per_object`. -/
def qualifyingNodes (cfg : Config) (scene : Scene) (image : List (Option ℕ)) : List ℕ :=
  (List.range scene.nodes.length).filter fun i =>
    IsObject (sceneNode scene i) &&
      decide (minPixelCountPerObject cfg < (nodePixelCount image i : ℤ))

/-- Embedding of the method-0 score (lines 846-862): with `k` qualifying
nodes and `p` the sum of their pixel counts, the score is
`k * p / max_pixel_count` when `k > min_visible_objects`, else 0. -/
def method0Score (cfg : Config) (scene : Scene) (image : List (Option ℕ)) : ℚ :=
  let q := qualifyingNodes cfg scene image
  let nodeCount := q.length
  let pixelCount := (q.map (nodePixelCount image)).sum
  if (nodeCount : ℚ) > cfg.minVisibleObjects then
    ((nodeCount * pixelCount : ℕ) : ℚ) / (maxPixelCount cfg : ℚ)
  else 0

/-- Argument passed to `log` by the method-1 score (line 870):
`node_pixel_counts[i] / min_pixel_count_per_object` is C `int` division,
truncating toward zero. -/
def method1LogArg (cfg : Config) (image : List (Option ℕ)) (i : ℕ) : ℤ :=
  Int.tdiv (nodePixelCount image i : ℤ) (minPixelCountPerObject cfg)

/-- Embedding of the method-1 score (lines 863-878): the sum over qualifying
nodes of `log` of the integer quotient, reported when `k >
min_visible_objects`, else 0. -/
noncomputable def method1Score (cfg : Config) (scene : Scene)
    (image : List (Option ℕ)) : ℝ :=
  let q := qualifyingNodes cfg scene image
  if ((q.length : ℚ) > cfg.minVisibleObjects) then
    (q.map fun i => Real.log ((method1LogArg cfg image i : ℤ) : ℝ)).sum
  else 0

/-- Embedding of `SceneCoverageScore` (lines 814-885).  The renderer is an
oracle from the root node handed to `RenderImage` to the resulting
node-identifier image.  The code renders from `scene->Root()`
(line 829) and never reads its `parent_node` argument, which is therefore
unused here exactly as in the source. -/
noncomputable def SceneCoverageScore (cfg : Config) (scene : Scene)
    (render : ℕ → List (Option ℕ)) (rootNode : ℕ) (parentNode : Option ℕ) : ℝ :=
  if maxPixelCount cfg = 0 then 0
  else if minPixelCountPerObject cfg = 0 then 0
  else if cfg.sceneScoringMethod = 0 then
    ((method0Score cfg scene (render rootNode) : ℚ) : ℝ)
  else if cfg.sceneScoringMethod = 1 then
    method1Score cfg scene (render rootNode)
  else 0

/-- Restricted-rendering variant following the words of the specification
for claim C1: when a room node is given, the image is rendered from that
room node, so only its subtree can contribute pixel counts. -/
noncomputable def SceneCoverageScoreRestricted (cfg : Config) (scene : Scene)
    (render : ℕ → List (Option ℕ)) (rootNode : ℕ) (parentNode : Option ℕ) : ℝ :=
  if maxPixelCount cfg = 0 then 0
  else if minPixelCountPerObject cfg = 0 then 0
  else if cfg.sceneScoringMethod = 0 then
    ((method0Score cfg scene (render (parentNode.getD rootNode)) : ℚ) : ℝ)
  else if cfg.sceneScoringMethod = 1 then
    method1Score cfg scene (render (parentNode.getD rootNode))
  else 0

/-- Qualification following the words of the specification: the node is an
object and its pixel count exceeds `min_visible_fraction * image_pixel_count`
as a rational (untruncated) threshold. -/
def qualifiesClaim (cfg : Config) (scene : Scene) (image : List (Option ℕ))
    (i : ℕ) : Bool :=
  IsObject (sceneNode scene i) &&
    decide (cfg.minVisibleFraction * (maxPixelCount cfg : ℚ) < (nodePixelCount image i : ℚ))

/-- Qualifying nodes under the specification-worded threshold. -/
def qualifyingNodesClaim (cfg : Config) (scene : Scene)
    (image : List (Option ℕ)) : List ℕ :=
  (List.range scene.nodes.length).filter (qualifiesClaim cfg scene image)

/-- Method-0 score following the words of the specification for claim C5:
`k * p / image_pixel_count` when `k > min_visible_objects`, else 0, with the
rational qualification threshold. -/
def method0ScoreClaim (cfg : Config) (scene : Scene)
    (image : List (Option ℕ)) : ℚ :=
  let q := qualifyingNodesClaim cfg scene image
  if ((q.length : ℚ) > cfg.minVisibleObjects) then
    ((q.length : ℚ) * ((q.map (nodePixelCount image)).sum : ℚ)) / (maxPixelCount cfg : ℚ)
  else 0

/-- Method-1 score following the words of claim C4: the logarithm is taken
of the real-valued ratio of the pixel count to the threshold. -/
noncomputable def method1ScoreClaim (cfg : Config) (scene : Scene)
    (image : List (Option ℕ)) : ℝ :=
  let q := qualifyingNodesClaim cfg scene image
  if ((q.length : ℚ) > cfg.minVisibleObjects) then
    (q.map fun i =>
      Real.log ((nodePixelCount image i : ℝ) / ((minPixelCountPerObject cfg : ℤ) : ℝ))).sum
  else 0

/-- Method-1 score as amended for claim C4: identical to the claim except
that the logarithm argument is the C integer quotient, not the real ratio. -/
noncomputable def method1ScoreAmended (cfg : Config) (scene : Scene)
    (image : List (Option ℕ)) : ℝ :=
  let q := qualifyingNodesClaim cfg scene image
  if ((q.length : ℚ) > cfg.minVisibleObjects) then
    (q.map fun i => Real.log ((method1LogArg cfg image i : ℤ) : ℝ)).sum
  else 0

/-- Surface sample used by `ObjectCoverageScore` (lines 793-803): the
distance from the camera origin to the sampled point, and the first scene
intersection of the ray toward it as reported by the ray-casting oracle
(node index and ray parameter), `none` when nothing is hit within range. -/
structure SurfaceSample where
  distance : ℚ
  hit : Option (ℕ × ℚ)
deriving DecidableEq

/-- Tolerance `tolerance_t = 0.01` of line 796. -/
def toleranceT : ℚ := 1 / 100

/-- Visibility test for one sample (lines 795-802): the hit must land on
the target node at parameter equal to `distance + tolerance_t` within
`tolerance_t` (the `RNIsEqual` comparison, modelled from the spec as the
RN epsilon comparison on the missing gaps library side). -/
def sampleVisible (nodeIdx : ℕ) (s : SurfaceSample) : Bool :=
  match s.hit with
  | none => false
  | some (hitNode, hitT) =>
    hitNode == nodeIdx && decide (|hitT - (s.distance + toleranceT)| ≤ toleranceT)

/-- Embedding of `ObjectCoverageScore` (lines 722-810) for one call with a
freshly generated sample set: 0 when the total surface area is zero
(line 761) or no points were generated (line 789), otherwise the fraction
of samples whose visibility ray reaches the target. -/
def ObjectCoverageScore (nodeIdx : ℕ) (totalArea : ℚ)
    (samples : List SurfaceSample) : ℚ :=
  if totalArea = 0 then 0
  else if samples.length = 0 then 0
  else ((samples.filter (sampleVisible nodeIdx)).length : ℚ) / (samples.length : ℚ)

/-- Two-dimensional grid of rational cell values, standing for `R2Grid`
restricted to what the mask computation reads. -/
structure R2GridQ where
  xres : ℕ
  yres : ℕ
  values : ℕ → ℕ → ℚ

/-- Modelled from the spec: `R2Grid Threshold(t, lo, hi)` (library code not
under src/) maps every cell below the threshold to `lo` and every other
cell to `hi`, producing a binary grid for `lo, hi` in `{0, 1}`. -/
def gridThreshold (t lo hi : ℚ) (g : R2GridQ) : R2GridQ :=
  ⟨g.xres, g.yres, fun i j => if g.values i j < t then lo else hi⟩

/-- Test that the whole neighbourhood of Chebyshev radius `r` around a cell
lies inside the grid and holds mask values (at least 1/2). -/
def erodeNeighborhoodAll (r : ℕ) (g : R2GridQ) (i j : ℕ) : Bool :=
  (List.range (2 * r + 1)).all fun di =>
    (List.range (2 * r + 1)).all fun dj =>
      decide (r ≤ i + di) && decide (r ≤ j + dj) &&
      decide (i + di - r < g.xres) && decide (j + dj - r < g.yres) &&
      decide ((1 : ℚ) / 2 ≤ g.values (i + di - r) (j + dj - r))

/-- Modelled from the spec: `R2Grid Erode(radius)` (library code not under
src/) clears every cell within the radius of the mask boundary; a cell
keeps its value only when its whole neighbourhood is inside the mask. -/
def gridErode (r : ℕ) (g : R2GridQ) : R2GridQ :=
  ⟨g.xres, g.yres, fun i j => if erodeNeighborhoodAll r g i j then g.values i j else 0⟩

/-- Modelled from the spec: `R2Grid Mask(m)` (library code not under src/)
is the elementwise conjunction, keeping a cell value only where the other
mask is set. -/
def gridMask (g m : R2GridQ) : R2GridQ :=
  ⟨g.xres, g.yres, fun i j => if m.values i j < 1 / 2 then 0 else g.values i j⟩

/-- Floor mask of `ComputeViewpointMask` (lines 1002-1005): threshold the
floor rasterization at 1/2 to `{0,1}` and erode. -/
def viewpointFloorMask (r : ℕ) (floorRaster : R2GridQ) : R2GridQ :=
  gridErode r (gridThreshold (1 / 2) 0 1 floorRaster)

/-- Obstacle-free mask of `ComputeViewpointMask` (lines 1008-1029):
threshold the obstacle rasterization at 1/2 with inverted outputs
(occupied -> 0, free -> 1) and erode. -/
def viewpointObjectMask (r : ℕ) (objectRaster : R2GridQ) : R2GridQ :=
  gridErode r (gridThreshold (1 / 2) 1 0 objectRaster)

/-- Final viewpoint mask (lines 1032-1033): the floor mask masked by the
obstacle-free mask. -/
def computeViewpointMaskGrid (r : ℕ) (floorRaster objectRaster : R2GridQ) : R2GridQ :=
  gridMask (viewpointFloorMask r floorRaster) (viewpointObjectMask r objectRaster)

/-- World-space XY extent of the room, the input to the mask resolution
computation (line 996). -/
structure RoomBBoxQ where
  xmin : ℚ
  xmax : ℚ
  ymin : ℚ
  ymax : ℚ
deriving DecidableEq

/-- Embedding of the grid spacing computation (lines 992-995): half the
clearance, replaced by 0.1 when zero, capped at 0.1. -/
def gridSampleSpacing (minDistanceFromObstacle : ℚ) : ℚ :=
  let s := minDistanceFromObstacle / 2
  let s1 := if s = 0 then 1 / 10 else s
  if s1 > 1 / 10 then 1 / 10 else s1

/-- Embedding of `xres` (line 997): the X extent divided by the spacing,
truncated by the assignment to `int`. -/
def maskXRes (bbox : RoomBBoxQ) (spacing : ℚ) : ℤ :=
  truncRat ((bbox.xmax - bbox.xmin) / spacing)

/-- Embedding of `yres` (line 998): the code divides `grid_bbox.XLength()`,
the X extent, by the spacing, exactly as transcribed here. -/
def maskYRes (bbox : RoomBBoxQ) (spacing : ℚ) : ℤ :=
  truncRat ((bbox.xmax - bbox.xmin) / spacing)

/-- Per-axis `yres` following the words of the specification for claim C3:
the Y extent divided by the spacing. -/
def maskYResSpec (bbox : RoomBBoxQ) (spacing : ℚ) : ℤ :=
  truncRat ((bbox.ymax - bbox.ymin) / spacing)

/-- Embedding of the resolution acceptance test (line 999): the room is
rejected when `xres < 3` or `yres < 3`. -/
def maskResolutionAccepted (bbox : RoomBBoxQ) (spacing : ℚ) : Bool :=
  !(decide (maskXRes bbox spacing < 3) || decide (maskYRes bbox spacing < 3))

/-- Resolution acceptance under the specification-worded per-axis `yres`. -/
def maskResolutionAcceptedSpec (bbox : RoomBBoxQ) (spacing : ℚ) : Bool :=
  !(decide (maskXRes bbox spacing < 3) || decide (maskYResSpec bbox spacing < 3))

/-- One step of the best-of-bucket reduction shared by the three camera
generation strategies (lines 1136-1143, 1258-1266, 1369-1377): a candidate
with score 0 is skipped, a candidate below `min_score` is skipped, and a
surviving candidate replaces the best only when strictly greater. -/
def updateBestCamera {α : Type} [LinearOrder α] [Zero α]
    (minScore best c : α) : α :=
  if c = 0 then best
  else if c < minScore then best
  else if best < c then c
  else best

/-- Value of the best camera after scanning all candidates of one bucket,
starting from the default camera value 0. -/
def bestCameraValue {α : Type} [LinearOrder α] [Zero α]
    (minScore : α) (cs : List α) : α :=
  cs.foldl (fun b c => updateBestCamera minScore b c) 0

/-- Emission test (lines 1147, 1271, 1382): the best camera of the bucket
is emitted only when its value is strictly positive. -/
def emittedCameraValue {α : Type} [LinearOrder α] [Zero α]
    (minScore : α) (cs : List α) : Option α :=
  if 0 < bestCameraValue minScore cs then some (bestCameraValue minScore cs) else none

/-- Keypoint camera handed to the trajectory interpolator: viewpoint,
towards and up, as read at lines 1429-1431. -/
structure TrajCamera where
  viewpoint : ℚ × ℚ × ℚ
  towards : ℚ × ℚ × ℚ
  up : ℚ × ℚ × ℚ
deriving DecidableEq

/-- Fatal error raised when too few keypoints are supplied. -/
inductive TrajError where
  | insufficientData
deriving DecidableEq

/-- Modelled from the spec: `InterpolateCameraTrajectory` (lines 1408-1473)
builds Catmull-Rom splines through the camera keypoints and resamples them;
the spline library (`R3CatmullRomSpline`, not under src/) fails fatally
with an insufficient-data error when fewer than 2 keypoints are supplied,
so no resampling happens.  Spline fitting and resampling themselves are
abstracted as the `resample` oracle. -/
def InterpolateCameraTrajectory (resample : List TrajCamera → ℚ → List TrajCamera)
    (cams : List TrajCamera) (step : ℚ) : Except TrajError (List TrajCamera) :=
  if cams.length < 2 then Except.error TrajError.insufficientData
  else Except.ok (resample cams step)

/-- Example keypoint camera for witnesses. -/
def trajCamExample : TrajCamera := ⟨(0, 0, 0), (1, 0, 0), (0, 0, 1)⟩

/-- Embedding of the wall-centric camera label (line 1274):
`sprintf(name, "%s_%d\n", room_node->Name(), k)`. -/
def wallCameraName (roomName : String) (k : ℕ) : String :=
  roomName ++ "_" ++ Nat.repr k ++ "\n"

/-- Embedding of the room-centric camera label (line 1385):
`sprintf(name, "%s_%d", room_node->Name(), j)`. -/
def roomCameraName (roomName : String) (j : ℕ) : String :=
  roomName ++ "_" ++ Nat.repr j

/-- Concrete configuration for the room-restriction divergence: a 10 x 10
image, threshold fraction 1/100 (so one pixel), no minimum object count,
scoring method 0. -/
def cfgRoomRestriction : Config := ⟨10, 10, 1 / 100, 0, 0⟩

/-- Concrete scene for the room-restriction divergence: a root with three
children, an object inside the room, the room node, and an object outside
the room. -/
def sceneRoomRestriction : Scene := ⟨[⟨none, 3⟩, ⟨none, 0⟩, ⟨none, 1⟩, ⟨none, 0⟩]⟩

/-- Render oracle for the room-restriction divergence: rendering from the
room node (index 2) shows only the in-room object (index 1); rendering from
the scene root also shows the out-of-room object (index 3). -/
def renderRoomRestriction : ℕ → List (Option ℕ) := fun root =>
  if root = 2 then List.replicate 50 (some 1) ++ List.replicate 50 none
  else List.replicate 50 (some 1) ++ List.replicate 50 (some 3)

/-- Concrete configuration for the method-1 integer-division divergence:
threshold fraction 3/100 of a 10 x 10 image, so a pixel threshold of 3. -/
def cfgMethod1 : Config := ⟨10, 10, 3 / 100, 0, 1⟩

/-- Concrete single-object scene. -/
def sceneOneObject : Scene := ⟨[⟨none, 0⟩]⟩

/-- Render oracle giving the single object 4 pixels out of 100. -/
def renderFourPixels : ℕ → List (Option ℕ) := fun _ =>
  List.replicate 4 (some 0) ++ List.replicate 96 none

/-- Concrete configuration for the method-0 zero-threshold divergence: the
fraction 1/200 of a 10 x 10 image truncates to a zero pixel threshold. -/
def cfgMethod0ZeroThreshold : Config := ⟨10, 10, 1 / 200, 0, 0⟩

/-- Render oracle giving the single object 50 pixels out of 100. -/
def renderFiftyPixels : ℕ → List (Option ℕ) := fun _ =>
  List.replicate 50 (some 0) ++ List.replicate 50 none

/-- Concrete configuration with a sane threshold for the method-0 witness. -/
def cfgMethod0 : Config := ⟨10, 10, 1 / 100, 0, 0⟩

/-- Concrete room extent whose Y side is thin: X extent 1, Y extent 1/5. -/
def thinRoomBBox : RoomBBoxQ := ⟨0, 1, 0, 1 / 5⟩

/-- Concrete 1 x 1 floor rasterization fully covered by floor triangles. -/
def floorRasterExample : R2GridQ := ⟨1, 1, fun _ _ => 1⟩

/-- Concrete 1 x 1 obstacle rasterization with no obstacles. -/
def objectRasterExample : R2GridQ := ⟨1, 1, fun _ _ => 0⟩

/-- Truncation toward zero agrees with the floor on nonnegative rationals. -/
theorem truncRat_eq_floor_of_nonneg {q : ℚ} (h : 0 ≤ q) : truncRat q = ⌊q⌋ := by
  unfold truncRat
  rw [Rat.floor_def]
  exact Int.tdiv_eq_ediv (Rat.num_nonneg.mpr h) (Int.natCast_nonneg _)

/-- Truncation toward zero of a negative rational is nonpositive. -/
theorem truncRat_nonpos_of_neg {q : ℚ} (h : q < 0) : truncRat q ≤ 0 := by
  unfold truncRat
  have hnum : q.num ≤ 0 := le_of_lt (Rat.num_neg.mpr h)
  have hrw : q.num = -(-q.num) := by ring
  rw [hrw, Int.neg_tdiv]
  have hpos : 0 ≤ (-q.num).tdiv (q.den : ℤ) :=
    Int.tdiv_nonneg (by omega) (Int.natCast_nonneg _)
  omega

/-- Truncation toward zero of an integer-valued rational is that integer. -/
theorem truncRat_intCast (z : ℤ) : truncRat (z : ℚ) = z := by
  unfold truncRat
  rw [Rat.intCast_num, Rat.intCast_den]
  simp [Int.tdiv_one]

/-- Evaluation rule for `truncRat` at integer-valued rationals. -/
theorem truncRat_eval {q : ℚ} {z : ℤ} (h : q = (z : ℚ)) : truncRat q = z := by
  rw [h, truncRat_intCast]

/-- For a natural count, exceeding the truncated threshold is the same as
exceeding the rational threshold, as long as the truncation is nonzero. -/
theorem count_gt_trunc_iff (q : ℚ) (c : ℕ) (h : truncRat q ≠ 0) :
    truncRat q < (c : ℤ) ↔ q < (c : ℚ) := by
  rcases le_or_lt 0 q with hq | hq
  · rw [truncRat_eq_floor_of_nonneg hq]
    rw [Int.floor_lt]
    push_cast
    exact Iff.rfl
  · have ht : truncRat q ≤ 0 := truncRat_nonpos_of_neg hq
    have ht2 : truncRat q < 0 := lt_of_le_of_ne ht h
    constructor
    · intro _
      exact lt_of_lt_of_le hq (by positivity)
    · intro _
      have : (0 : ℤ) ≤ (c : ℤ) := Int.natCast_nonneg _
      omega

/-- Under a nonzero truncated threshold the code qualification filter and
the specification-worded filter pick the same nodes. -/
theorem qualifyingNodes_eq_claim (cfg : Config) (scene : Scene)
    (image : List (Option ℕ)) (ht : minPixelCountPerObject cfg ≠ 0) :
    qualifyingNodes cfg scene image = qualifyingNodesClaim cfg scene image := by
  unfold qualifyingNodes qualifyingNodesClaim
  apply List.filter_congr
  intro i _
  unfold qualifiesClaim
  congr 1
  rw [decide_eq_decide]
  exact count_gt_trunc_iff (cfg.minVisibleFraction * (maxPixelCount cfg : ℚ))
    (nodePixelCount image i) ht

/-- Under a nonzero truncated threshold the code method-0 score equals the
specification-worded method-0 score. -/
theorem method0Score_eq_claim (cfg : Config) (scene : Scene)
    (image : List (Option ℕ)) (ht : minPixelCountPerObject cfg ≠ 0) :
    method0Score cfg scene image = method0ScoreClaim cfg scene image := by
  unfold method0Score method0ScoreClaim
  rw [qualifyingNodes_eq_claim cfg scene image ht]
  dsimp only
  split
  · push_cast
    ring
  · rfl

/-- No decimal digit character produced by `Nat.digitChar` is a newline. -/
theorem digitChar_ne_newline {m : ℕ} (h : m < 10) : Nat.digitChar m ≠ '\n' := by
  interval_cases m <;> decide

/-- The digit accumulator loop of `Nat.repr` never introduces a newline. -/
theorem toDigitsCore_ne_newline :
    ∀ (f n : ℕ) (acc : List Char), (∀ c ∈ acc, c ≠ '\n') →
      ∀ c ∈ Nat.toDigitsCore 10 f n acc, c ≠ '\n' := by
  intro f
  induction f with
  | zero => intro n acc hacc c hc; exact hacc c hc
  | succ f ih =>
    intro n acc hacc c hc
    unfold Nat.toDigitsCore at hc
    have hc2 : c ∈ (if n / 10 = 0 then (n % 10).digitChar :: acc
        else Nat.toDigitsCore 10 f (n / 10) ((n % 10).digitChar :: acc)) := hc
    clear hc
    split at hc2
    · rcases List.mem_cons.mp hc2 with h | h
      · subst h; exact digitChar_ne_newline (Nat.mod_lt _ (by norm_num))
      · exact hacc c h
    · refine ih _ _ ?_ c hc2
      intro d hd
      rcases List.mem_cons.mp hd with h | h
      · subst h; exact digitChar_ne_newline (Nat.mod_lt _ (by norm_num))
      · exact hacc d h

/-- The decimal rendering of a natural number contains no newline. -/
theorem repr_ne_newline (n : ℕ) : '\n' ∉ (Nat.repr n).data := by
  intro hmem
  unfold Nat.repr at hmem
  have h2 : (Nat.toDigits 10 n).asString.data = Nat.toDigits 10 n := rfl
  rw [h2] at hmem
  exact toDigitsCore_ne_newline _ _ _ (by intro c hc; cases hc) '\n' hmem rfl

/-- One reduction step preserves the bucket invariant: the running best is
either still the default 0 or a positive score at or above the threshold. -/
theorem updateBestCamera_invariant {α : Type} [LinearOrder α] [Zero α]
    (minScore b c : α) (h0 : 0 ≤ minScore)
    (hb : b = 0 ∨ (0 < b ∧ minScore ≤ b)) :
    updateBestCamera minScore b c = 0 ∨
      (0 < updateBestCamera minScore b c ∧ minScore ≤ updateBestCamera minScore b c) := by
  unfold updateBestCamera
  by_cases hc0 : c = 0
  · rw [if_pos hc0]; exact hb
  · rw [if_neg hc0]
    by_cases hcm : c < minScore
    · rw [if_pos hcm]; exact hb
    · rw [if_neg hcm]
      push_neg at hcm
      have hcpos : 0 < c := lt_of_le_of_ne (le_trans h0 hcm) (Ne.symm hc0)
      by_cases hbc : b < c
      · rw [if_pos hbc]; exact Or.inr ⟨hcpos, hcm⟩
      · rw [if_neg hbc]; exact hb

/-- The bucket reduction preserves the invariant over any candidate list. -/
theorem bestCameraValue_foldl_invariant {α : Type} [LinearOrder α] [Zero α]
    (minScore : α) (h0 : 0 ≤ minScore) :
    ∀ (cs : List α) (b : α), (b = 0 ∨ (0 < b ∧ minScore ≤ b)) →
      (cs.foldl (fun x c => updateBestCamera minScore x c) b = 0 ∨
        (0 < cs.foldl (fun x c => updateBestCamera minScore x c) b ∧
          minScore ≤ cs.foldl (fun x c => updateBestCamera minScore x c) b)) := by
  intro cs
  induction cs with
  | nil => intro b hb; exact hb
  | cons c cs ih =>
    intro b hb
    rw [List.foldl_cons]
    exact ih _ (updateBestCamera_invariant minScore b c h0 hb)

/-- Claim C2: invoked with fewer than 2 cameras, the trajectory interpolator
fails fatally with the insufficient-data error and never reaches the
resampling stage; a resampled camera list is produced exactly when at least
2 input cameras are supplied. -/
theorem interpolateCameraTrajectory_requires_two_cameras
    (resample : List TrajCamera → ℚ → List TrajCamera)
    (cams : List TrajCamera) (step : ℚ) :
    (cams.length < 2 →
      InterpolateCameraTrajectory resample cams step =
        Except.error TrajError.insufficientData) ∧
    ((∃ out, InterpolateCameraTrajectory resample cams step = Except.ok out) ↔
      2 ≤ cams.length) := by
  unfold InterpolateCameraTrajectory
  constructor
  · intro h
    rw [if_pos h]
  · constructor
    · rintro ⟨out, hout⟩
      by_cases h : cams.length < 2
      · rw [if_pos h] at hout
        cases hout
      · omega
    · intro h
      rw [if_neg (by omega)]
      exact ⟨resample cams step, rfl⟩

/-- Witness for C2: the empty camera list fails with the insufficient-data
error, and a two-camera list produces a resampled output. -/
theorem interpolateCameraTrajectory_requires_two_cameras_witness :
    InterpolateCameraTrajectory (fun l _ => l) ([] : List TrajCamera) (1 / 10) =
      Except.error TrajError.insufficientData ∧
    (∃ out, InterpolateCameraTrajectory (fun l _ => l)
      [trajCamExample, trajCamExample] (1 / 10) = Except.ok out) :=
  ⟨(interpolateCameraTrajectory_requires_two_cameras _ _ _).1 (by decide),
    (interpolateCameraTrajectory_requires_two_cameras _ _ _).2.mpr (by decide)⟩

/-- Claim C3 failing input: on a room whose world bounding box has X extent
1 and Y extent 1/5, with clearance 1/5 (hence spacing 1/10), the code
computes both resolutions from the X extent (scn2cam.cpp line 998 divides
`grid_bbox.XLength()` for `yres`), obtaining 10 x 10 and accepting the
room, while the per-axis rule of the claim yields `yres = 2 < 3` and
rejects it.  The spacing itself does follow the claimed
`min(0.1, clearance / 2)` formula. -/
theorem viewpointMask_yres_uses_x_extent :
    gridSampleSpacing (1 / 5) = 1 / 10 ∧
    maskXRes thinRoomBBox (gridSampleSpacing (1 / 5)) = 10 ∧
    maskYRes thinRoomBBox (gridSampleSpacing (1 / 5)) = 10 ∧
    maskYResSpec thinRoomBBox (gridSampleSpacing (1 / 5)) = 2 ∧
    maskResolutionAccepted thinRoomBBox (gridSampleSpacing (1 / 5)) = true ∧
    maskResolutionAcceptedSpec thinRoomBBox (gridSampleSpacing (1 / 5)) = false := by
  have hs : gridSampleSpacing (1 / 5) = 1 / 10 := by
    unfold gridSampleSpacing
    norm_num
  have hx : maskXRes thinRoomBBox (1 / 10) = 10 := by
    unfold maskXRes thinRoomBBox
    exact truncRat_eval (by norm_num)
  have hy : maskYRes thinRoomBBox (1 / 10) = 10 := by
    unfold maskYRes thinRoomBBox
    exact truncRat_eval (by norm_num)
  have hy2 : maskYResSpec thinRoomBBox (1 / 10) = 2 := by
    unfold maskYResSpec thinRoomBBox
    exact truncRat_eval (by norm_num)
  refine ⟨hs, ?_, ?_, ?_, ?_, ?_⟩
  · rw [hs, hx]
  · rw [hs, hy]
  · rw [hs, hy2]
  · unfold maskResolutionAccepted
    rw [hs, hx, hy]
    decide
  · unfold maskResolutionAcceptedSpec
    rw [hs, hx, hy2]
    decide

/-- Claim C6: any camera emitted by the shared best-of-bucket reduction of
the three generation strategies has a strictly positive value that is at
least `min_score`, for every nonnegative `min_score`. -/
theorem emittedCamera_meets_min_score {α : Type} [LinearOrder α] [Zero α]
    (minScore : α) (cs : List α) (v : α)
    (h0 : 0 ≤ minScore) (hv : emittedCameraValue minScore cs = some v) :
    0 < v ∧ minScore ≤ v := by
  unfold emittedCameraValue at hv
  split at hv
  · injection hv with hv2
    subst hv2
    rename_i hpos
    rcases bestCameraValue_foldl_invariant minScore h0 cs 0 (Or.inl rfl) with h | h
    · unfold bestCameraValue at hpos
      rw [h] at hpos
      exact absurd hpos (lt_irrefl 0)
    · exact h
  · cases hv

/-- Witness for C6: with `min_score = 1` and candidate scores `[0, 3, 2]`,
the bucket emits 3, which is positive and at least the threshold. -/
theorem emittedCamera_meets_min_score_witness :
    emittedCameraValue (1 : ℤ) [0, 3, 2] = some 3 ∧ (0 < (3 : ℤ) ∧ (1 : ℤ) ≤ 3) :=
  ⟨by decide,
    emittedCamera_meets_min_score (1 : ℤ) [0, 3, 2] 3 (by decide) (by decide)⟩

/-- Claim C7: every cell of the built viewpoint mask is exactly 0 or 1, and
a mask cell set to 1 forces the eroded floor mask cell to 1. -/
theorem viewpointMask_binary_and_subset_floor (r : ℕ)
    (floorRaster objectRaster : R2GridQ) (i j : ℕ) :
    ((computeViewpointMaskGrid r floorRaster objectRaster).values i j = 0 ∨
      (computeViewpointMaskGrid r floorRaster objectRaster).values i j = 1) ∧
    ((computeViewpointMaskGrid r floorRaster objectRaster).values i j = 1 →
      (viewpointFloorMask r floorRaster).values i j = 1) := by
  have hfloor : (viewpointFloorMask r floorRaster).values i j = 0 ∨
      (viewpointFloorMask r floorRaster).values i j = 1 := by
    unfold viewpointFloorMask gridErode gridThreshold
    dsimp only
    split
    · split
      · exact Or.inl rfl
      · exact Or.inr rfl
    · exact Or.inl rfl
  unfold computeViewpointMaskGrid gridMask
  dsimp only
  constructor
  · split
    · exact Or.inl rfl
    · exact hfloor
  · split
    · intro h
      exact absurd h (by norm_num)
    · exact fun h => h

/-- Witness for C7: on a fully covered floor cell with no obstacles and
erosion radius 0, the mask is 1, so by the subset part the eroded floor
mask is 1 there as well. -/
theorem viewpointMask_binary_and_subset_floor_witness :
    (viewpointFloorMask 0 floorRasterExample).values 0 0 = 1 :=
  (viewpointMask_binary_and_subset_floor 0 floorRasterExample objectRasterExample 0 0).2
    (by
      unfold computeViewpointMaskGrid gridMask viewpointFloorMask viewpointObjectMask
        gridErode gridThreshold erodeNeighborhoodAll floorRasterExample objectRasterExample
      norm_num)

/-- Claim C10: the wall-centric label is the room name, an underscore and
the wall index followed by an embedded trailing newline, while the
room-centric label (room name, underscore, bucket index) contains no
newline when the room name contains none. -/
theorem wall_label_has_newline_room_label_has_none
    (roomName : String) (k j : ℕ) (h : '\n' ∉ roomName.data) :
    wallCameraName roomName k = roomCameraName roomName k ++ "\n" ∧
    '\n' ∈ (wallCameraName roomName k).data ∧
    '\n' ∉ (roomCameraName roomName j).data := by
  refine ⟨rfl, ?_, ?_⟩
  · unfold wallCameraName
    rw [String.data_append]
    exact List.mem_append.mpr (Or.inr (by decide))
  · unfold roomCameraName
    rw [String.data_append, String.data_append]
    intro hmem
    rcases List.mem_append.mp hmem with h1 | h2
    · rcases List.mem_append.mp h1 with ha | hb
      · exact h ha
      · revert hb
        decide
    · exact repr_ne_newline j h2

/-- Witness for C10: concrete labels for room `Room#0`, wall index 2 and
bucket index 3. -/
theorem wall_label_has_newline_room_label_has_none_witness :
    wallCameraName "Room#0" 2 = roomCameraName "Room#0" 2 ++ "\n" ∧
    '\n' ∈ (wallCameraName "Room#0" 2).data ∧
    '\n' ∉ (roomCameraName "Room#0" 3).data :=
  wall_label_has_newline_room_label_has_none "Room#0" 2 3 (by decide)

/-- Evaluation rule for the truncated pixel threshold at integer-valued
products. -/
theorem minPixelCountPerObject_eval {cfg : Config} {z : ℤ}
    (h : cfg.minVisibleFraction * (maxPixelCount cfg : ℚ) = (z : ℚ)) :
    minPixelCountPerObject cfg = z := by
  unfold minPixelCountPerObject
  exact truncRat_eval h

/-- The method-0 score is never negative. -/
theorem method0Score_nonneg (cfg : Config) (scene : Scene)
    (image : List (Option ℕ)) : 0 ≤ method0Score cfg scene image := by
  unfold method0Score
  dsimp only
  split
  · apply div_nonneg
    · exact Nat.cast_nonneg _
    · exact Nat.cast_nonneg _
  · exact le_refl 0

/-- The real logarithm of any integer cast is nonnegative: integers in the
open unit interval do not exist, and the logarithm in the embedding is
taken of the absolute value (zero at zero). -/
theorem log_intCast_nonneg (z : ℤ) : 0 ≤ Real.log ((z : ℤ) : ℝ) := by
  rcases eq_or_ne z 0 with rfl | hz
  · simp
  · rw [← Real.log_abs]
    apply Real.log_nonneg
    rw [← Int.cast_abs]
    exact_mod_cast Int.one_le_abs hz

/-- The method-1 score is never negative. -/
theorem method1Score_nonneg (cfg : Config) (scene : Scene)
    (image : List (Option ℕ)) : 0 ≤ method1Score cfg scene image := by
  unfold method1Score
  dsimp only
  split
  · apply List.sum_nonneg
    intro x hx
    rcases List.mem_map.mp hx with ⟨i, _, rfl⟩
    exact log_intCast_nonneg _
  · exact le_refl 0

/-- Claim C1 failing input: the code passes `scene->Root()` to the renderer
(scn2cam.cpp line 829) and never reads its `parent_node` argument, so with
the room node (index 2) given, the out-of-room object (index 3) still
qualifies and the score counts it: the code score is 2, while rendering
restricted to the room subtree as the claim states yields 1/2. -/
theorem sceneCoverageScore_ignores_room_restriction :
    3 ∈ qualifyingNodes cfgRoomRestriction sceneRoomRestriction (renderRoomRestriction 0) ∧
    SceneCoverageScore cfgRoomRestriction sceneRoomRestriction renderRoomRestriction 0 (some 2) = 2 ∧
    SceneCoverageScoreRestricted cfgRoomRestriction sceneRoomRestriction renderRoomRestriction 0 (some 2) = 1 / 2 := by
  have ht : minPixelCountPerObject cfgRoomRestriction = 1 :=
    minPixelCountPerObject_eval (by norm_num [maxPixelCount, cfgRoomRestriction])
  have htne : minPixelCountPerObject cfgRoomRestriction ≠ 0 := by rw [ht]; decide
  have hq : qualifyingNodes cfgRoomRestriction sceneRoomRestriction
      (renderRoomRestriction 0) = [1, 3] := by
    simp only [qualifyingNodes, ht]
    decide
  have hq2 : qualifyingNodes cfgRoomRestriction sceneRoomRestriction
      (renderRoomRestriction 2) = [1] := by
    simp only [qualifyingNodes, ht]
    decide
  have hm0 : method0Score cfgRoomRestriction sceneRoomRestriction
      (renderRoomRestriction 0) = 2 := by
    unfold method0Score
    dsimp only
    rw [hq]
    rw [if_pos (by norm_num [cfgRoomRestriction])]
    rw [show ([1, 3].map (nodePixelCount (renderRoomRestriction 0))).sum = 100 from by decide]
    rw [show maxPixelCount cfgRoomRestriction = 100 from rfl]
    norm_num
  have hm0r : method0Score cfgRoomRestriction sceneRoomRestriction
      (renderRoomRestriction 2) = 1 / 2 := by
    unfold method0Score
    dsimp only
    rw [hq2]
    rw [if_pos (by norm_num [cfgRoomRestriction])]
    rw [show ([1].map (nodePixelCount (renderRoomRestriction 2))).sum = 50 from by decide]
    rw [show maxPixelCount cfgRoomRestriction = 100 from rfl]
    norm_num
  refine ⟨by rw [hq]; decide, ?_, ?_⟩
  · unfold SceneCoverageScore
    rw [if_neg (by decide), if_neg htne,
      if_pos (show cfgRoomRestriction.sceneScoringMethod = 0 from rfl), hm0]
    norm_num
  · unfold SceneCoverageScoreRestricted
    rw [if_neg (by decide), if_neg htne,
      if_pos (show cfgRoomRestriction.sceneScoringMethod = 0 from rfl)]
    rw [show (some 2).getD 0 = 2 from rfl, hm0r]
    norm_num

/-- Claim C4 counterexample: with scoring method 1, a 10 x 10 image, pixel
threshold 3 and a single object covering 4 pixels, the code computes
`log(4 / 3)` with C integer division, so `log 1 = 0`, while the claim
computes the real ratio, `log(4/3) > 0`. -/
theorem method1_real_ratio_counterexample :
    SceneCoverageScore cfgMethod1 sceneOneObject renderFourPixels 0 none ≠
      method1ScoreClaim cfgMethod1 sceneOneObject (renderFourPixels 0) := by
  have ht : minPixelCountPerObject cfgMethod1 = 3 :=
    minPixelCountPerObject_eval (by norm_num [maxPixelCount, cfgMethod1])
  have htne : minPixelCountPerObject cfgMethod1 ≠ 0 := by rw [ht]; decide
  have hcount : nodePixelCount (renderFourPixels 0) 0 = 4 := by decide
  have hq : qualifyingNodes cfgMethod1 sceneOneObject (renderFourPixels 0) = [0] := by
    simp only [qualifyingNodes, ht]
    decide
  have hqc : qualifyingNodesClaim cfgMethod1 sceneOneObject (renderFourPixels 0) = [0] := by
    rw [← qualifyingNodes_eq_claim _ _ _ htne]
    exact hq
  have hL : SceneCoverageScore cfgMethod1 sceneOneObject renderFourPixels 0 none = 0 := by
    unfold SceneCoverageScore
    rw [if_neg (by decide), if_neg htne, if_neg (by decide),
      if_pos (show cfgMethod1.sceneScoringMethod = 1 from rfl)]
    unfold method1Score
    dsimp only
    rw [hq, if_pos (by norm_num [cfgMethod1])]
    have harg : method1LogArg cfgMethod1 (renderFourPixels 0) 0 = 1 := by
      unfold method1LogArg
      rw [ht, hcount]
      decide
    simp [harg]
  have hR : method1ScoreClaim cfgMethod1 sceneOneObject (renderFourPixels 0) =
      Real.log ((4 : ℝ) / 3) := by
    unfold method1ScoreClaim
    dsimp only
    rw [hqc, if_pos (by norm_num [cfgMethod1])]
    rw [List.map_cons, List.map_nil, List.sum_cons, List.sum_nil, add_zero]
    rw [hcount, ht]
    norm_num
  rw [hL, hR]
  exact ne_of_lt (Real.log_pos (by norm_num))

/-- Claim C4 as amended: with scoring method 1, a nonempty image and a
nonzero truncated pixel threshold, the scene coverage score equals the sum
over qualifying nodes (rational-threshold qualification) of the logarithm
of the C integer quotient of pixel count by threshold, when the qualifying
count exceeds `min_visible_objects`, else 0. -/
theorem sceneCoverageScore_method1_amended (cfg : Config) (scene : Scene)
    (render : ℕ → List (Option ℕ)) (rootNode : ℕ) (parentNode : Option ℕ)
    (hm : cfg.sceneScoringMethod = 1) (hmax : maxPixelCount cfg ≠ 0)
    (ht : minPixelCountPerObject cfg ≠ 0) :
    SceneCoverageScore cfg scene render rootNode parentNode =
      method1ScoreAmended cfg scene (render rootNode) := by
  unfold SceneCoverageScore
  rw [if_neg hmax, if_neg ht, hm]
  rw [if_neg (by decide), if_pos rfl]
  unfold method1Score method1ScoreAmended
  rw [qualifyingNodes_eq_claim cfg scene (render rootNode) ht]

/-- Witness for the amended C4 at the concrete method-1 scenario. -/
theorem sceneCoverageScore_method1_amended_witness :
    SceneCoverageScore cfgMethod1 sceneOneObject renderFourPixels 0 none =
      method1ScoreAmended cfgMethod1 sceneOneObject (renderFourPixels 0) :=
  sceneCoverageScore_method1_amended cfgMethod1 sceneOneObject renderFourPixels 0 none
    rfl (by decide)
    (by
      rw [minPixelCountPerObject_eval (z := 3) (by norm_num [maxPixelCount, cfgMethod1])]
      decide)

/-- Claim C5 counterexample: with scoring method 0 on a 10 x 10 image and
`min_visible_fraction = 1/200`, the truncated pixel threshold is 0, so the
code returns 0 before rendering, while the claim formula scores the single
50-pixel object as `1 * 50 / 100 = 1/2`. -/
theorem method0_zero_threshold_counterexample :
    SceneCoverageScore cfgMethod0ZeroThreshold sceneOneObject renderFiftyPixels 0 none ≠
      ((method0ScoreClaim cfgMethod0ZeroThreshold sceneOneObject (renderFiftyPixels 0) : ℚ) : ℝ) := by
  have ht : minPixelCountPerObject cfgMethod0ZeroThreshold = 0 := by
    unfold minPixelCountPerObject
    rw [show cfgMethod0ZeroThreshold.minVisibleFraction *
        ((maxPixelCount cfgMethod0ZeroThreshold : ℕ) : ℚ) = 1 / 2 from
      by norm_num [maxPixelCount, cfgMethod0ZeroThreshold]]
    rw [truncRat_eq_floor_of_nonneg (by norm_num)]
    rw [Int.floor_eq_zero_iff.mpr (Set.mem_Ico.mpr ⟨by norm_num, by norm_num⟩)]
  have hcount : nodePixelCount (renderFiftyPixels 0) 0 = 50 := by decide
  have hp : qualifiesClaim cfgMethod0ZeroThreshold sceneOneObject (renderFiftyPixels 0) 0 = true := by
    unfold qualifiesClaim
    rw [show IsObject (sceneNode sceneOneObject 0) = true from rfl, hcount]
    simp only [Bool.true_and, decide_eq_true_eq]
    norm_num [maxPixelCount, cfgMethod0ZeroThreshold]
  have hqc : qualifyingNodesClaim cfgMethod0ZeroThreshold sceneOneObject
      (renderFiftyPixels 0) = [0] := by
    unfold qualifyingNodesClaim
    rw [show sceneOneObject.nodes.length = 1 from rfl]
    rw [show List.range 1 = [0] from rfl]
    rw [List.filter_cons_of_pos hp, List.filter_nil]
  have hL : SceneCoverageScore cfgMethod0ZeroThreshold sceneOneObject renderFiftyPixels 0 none = 0 := by
    unfold SceneCoverageScore
    rw [if_neg (by decide), if_pos ht]
  have hR : method0ScoreClaim cfgMethod0ZeroThreshold sceneOneObject (renderFiftyPixels 0) = 1 / 2 := by
    unfold method0ScoreClaim
    dsimp only
    rw [hqc, if_pos (by norm_num [cfgMethod0ZeroThreshold])]
    rw [List.map_cons, List.map_nil, List.sum_cons, List.sum_nil, add_zero, hcount]
    rw [show maxPixelCount cfgMethod0ZeroThreshold = 100 from rfl]
    norm_num
  rw [hL, hR]
  norm_num

/-- Claim C5 as amended: with scoring method 0, a nonempty image and a
nonzero truncated pixel threshold, the scene coverage score equals
`k * p / image_pixel_count` over the qualifying nodes (a node qualifies
iff it is an object and its pixel count exceeds
`min_visible_fraction * image_pixel_count`) when `k > min_visible_objects`,
else 0. -/
theorem sceneCoverageScore_method0_amended (cfg : Config) (scene : Scene)
    (render : ℕ → List (Option ℕ)) (rootNode : ℕ) (parentNode : Option ℕ)
    (hm : cfg.sceneScoringMethod = 0) (hmax : maxPixelCount cfg ≠ 0)
    (ht : minPixelCountPerObject cfg ≠ 0) :
    SceneCoverageScore cfg scene render rootNode parentNode =
      ((method0ScoreClaim cfg scene (render rootNode) : ℚ) : ℝ) := by
  unfold SceneCoverageScore
  rw [if_neg hmax, if_neg ht, hm, if_pos rfl]
  rw [method0Score_eq_claim cfg scene (render rootNode) ht]

/-- Witness for the amended C5 at the concrete method-0 scenario. -/
theorem sceneCoverageScore_method0_amended_witness :
    SceneCoverageScore cfgMethod0 sceneOneObject renderFiftyPixels 0 none =
      ((method0ScoreClaim cfgMethod0 sceneOneObject (renderFiftyPixels 0) : ℚ) : ℝ) :=
  sceneCoverageScore_method0_amended cfgMethod0 sceneOneObject renderFiftyPixels 0 none
    rfl (by decide)
    (by
      rw [minPixelCountPerObject_eval (z := 1) (by norm_num [maxPixelCount, cfgMethod0])]
      decide)

/-- Claim C8: the object coverage score always lies in the closed unit
interval and is 0 for a target of zero surface area, and the scene coverage
score is nonnegative under both scoring methods. -/
theorem coverageScore_bounds (nodeIdx : ℕ) (totalArea : ℚ)
    (samples : List SurfaceSample) (cfg : Config) (scene : Scene)
    (render : ℕ → List (Option ℕ)) (rootNode : ℕ) (parentNode : Option ℕ) :
    (0 ≤ ObjectCoverageScore nodeIdx totalArea samples ∧
      ObjectCoverageScore nodeIdx totalArea samples ≤ 1) ∧
    (totalArea = 0 → ObjectCoverageScore nodeIdx totalArea samples = 0) ∧
    0 ≤ SceneCoverageScore cfg scene render rootNode parentNode := by
  refine ⟨?_, ?_, ?_⟩
  · unfold ObjectCoverageScore
    split
    · norm_num
    · split
      · norm_num
      · rename_i hlen
        have hpos : 0 < (samples.length : ℚ) := by
          exact_mod_cast Nat.pos_of_ne_zero hlen
        constructor
        · apply div_nonneg (Nat.cast_nonneg _) (Nat.cast_nonneg _)
        · rw [div_le_one hpos]
          exact_mod_cast List.length_filter_le _ _
  · intro h
    unfold ObjectCoverageScore
    rw [if_pos h]
  · unfold SceneCoverageScore
    split
    · exact le_refl 0
    · split
      · exact le_refl 0
      · split
        · exact_mod_cast method0Score_nonneg cfg scene (render rootNode)
        · split
          · exact method1Score_nonneg cfg scene (render rootNode)
          · exact le_refl 0

/-- Witness for C8: a zero-area target scores 0, and the concrete method-0
scenario has a nonnegative scene score. -/
theorem coverageScore_bounds_witness :
    ObjectCoverageScore 0 0 [] = 0 ∧
    0 ≤ SceneCoverageScore cfgMethod0 sceneOneObject renderFiftyPixels 0 none :=
  ⟨(coverageScore_bounds 0 0 [] cfgMethod0 sceneOneObject renderFiftyPixels 0 none).2.1 rfl,
    (coverageScore_bounds 0 0 [] cfgMethod0 sceneOneObject renderFiftyPixels 0 none).2.2⟩

/-- Claim C9: when the image has zero pixels or the truncated per-object
pixel threshold is zero, the scene coverage score is 0 for every render
oracle and every room argument, and the result does not depend on the
render oracle at all (no rendering is consulted). -/
theorem sceneCoverageScore_degenerate_zero (cfg : Config) (scene : Scene)
    (render : ℕ → List (Option ℕ)) (rootNode : ℕ) (parentNode : Option ℕ)
    (h : maxPixelCount cfg = 0 ∨ minPixelCountPerObject cfg = 0) :
    SceneCoverageScore cfg scene render rootNode parentNode = 0 ∧
    ∀ render2 : ℕ → List (Option ℕ),
      SceneCoverageScore cfg scene render2 rootNode parentNode =
        SceneCoverageScore cfg scene render rootNode parentNode := by
  have key : ∀ rf : ℕ → List (Option ℕ),
      SceneCoverageScore cfg scene rf rootNode parentNode = 0 := by
    intro rf
    unfold SceneCoverageScore
    rcases h with h | h
    · rw [if_pos h]
    · by_cases hmax : maxPixelCount cfg = 0
      · rw [if_pos hmax]
      · rw [if_neg hmax, if_pos h]
  exact ⟨key render, fun render2 => by rw [key render2, key render]⟩

/-- Witness for C9: a zero-width image yields score 0. -/
theorem sceneCoverageScore_degenerate_zero_witness :
    SceneCoverageScore ⟨0, 480, 1 / 100, 3, 0⟩ ⟨[]⟩ (fun _ => []) 0 none = 0 :=
  (sceneCoverageScore_degenerate_zero ⟨0, 480, 1 / 100, 3, 0⟩ ⟨[]⟩ (fun _ => []) 0 none
    (Or.inl (by decide))).1
